import Mathlib

/-
Shallow embedding of the web3-audit-intelligence collection pipeline
(src/collectors/base_collector.py, src/collectors/code4rena_collector.py,
src/api/routes.py, run.py) together with theorems settling the spec claims.

HTML pages are modelled by the nodes the extractor actually reads: a
finding element carries its optional data-severity attribute and the text
of its optional h4 and p children; a contest-card element carries its
optional data-slug attribute and the text of its optional h3 child; a
detail page carries the list of finding elements, the optional prize-pool
text and the optional participants-count text. Python exceptions are
modelled with Except; a value of Except.error means the corresponding
Python call raised.
-/

namespace AuditIntel

/-- Python exception kinds that arise in the collector pipeline. -/
inductive PyError where
  | networkError
  | valueError
  | nameError
  | attributeError
  | typeError
  deriving Repr, DecidableEq

/-- Python values as they occur in the record dicts handled by
validate_data: strings, integers and lists. -/
inductive PyValue where
  | str : String → PyValue
  | int : Int → PyValue
  | list : List PyValue → PyValue

/-- Finding container div of class finding, restricted to the nodes read by
extract_findings: the optional data-severity attribute, the text of the
optional h4 child and the text of the optional p child. -/
structure FindingElem where
  dataSeverity : Option String
  h4 : Option String
  p : Option String
  deriving Repr, DecidableEq

/-- Structured finding record produced by extract_findings. -/
structure Finding where
  severity : String
  title : String
  description : String
  deriving Repr, DecidableEq

/-- Contest-card div on the index page, restricted to the nodes read by
get_contests: the optional data-slug attribute and the text of the optional
h3 child. With no h3 child, Python evaluates None.text and raises
AttributeError. -/
structure ContestElem where
  dataSlug : Option String
  h3 : Option String
  deriving Repr, DecidableEq

/-- Contest summary dict built by get_contests. -/
structure Contest where
  slug : String
  title : String
  url : String
  deriving Repr, DecidableEq

/-- Detail page soup, restricted to the nodes the extractors read. -/
structure DetailPage where
  findingElems : List FindingElem
  prizePool : Option String
  participantsCount : Option String
  deriving Repr, DecidableEq

/-- Report dict built by collect_contest_data. -/
structure Report where
  platform : String
  title : String
  url : String
  date : String
  findings : List Finding
  prize_pool : String
  participants : Int
  deriving Repr, DecidableEq

/-- Whitespace characters stripped by the Python str.strip method and by
the int builtin. -/
def isPySpace (c : Char) : Bool :=
  c = ' ' || c = '\t' || c = '\n' || c = '\r' || c = '\x0b' || c = '\x0c'

/-- Characters of a string with leading and trailing whitespace removed. -/
def stripChars (cs : List Char) : List Char :=
  ((cs.dropWhile isPySpace).reverse.dropWhile isPySpace).reverse

/-- Model of the Python str.strip method with no argument. -/
def pyStrip (s : String) : String :=
  ⟨stripChars s.data⟩

/-- Numeric value of a list of decimal digit characters. -/
def digitsToNat (cs : List Char) : Nat :=
  cs.foldl (fun a c => a * 10 + (c.toNat - 48)) 0

/-- Core of the Python int builtin on an already stripped character list:
an optional sign followed by a nonempty run of decimal digits parses; any
other shape raises ValueError (none). Digit-group underscores are not
modelled. -/
def pyIntCore : List Char → Option Int
  | [] => none
  | '+' :: rest =>
      if rest.length ≠ 0 ∧ rest.all Char.isDigit then some (digitsToNat rest) else none
  | '-' :: rest =>
      if rest.length ≠ 0 ∧ rest.all Char.isDigit then some (-(digitsToNat rest : Int)) else none
  | cs =>
      if cs.all Char.isDigit then some (digitsToNat cs) else none

/-- Model of the Python int builtin applied to a string: surrounding
whitespace is ignored, and a non-numeric argument raises ValueError,
modelled as none. -/
def pyInt (s : String) : Option Int :=
  pyIntCore (stripChars s.data)

/-- Code4renaCollector.extract_findings: one record per finding container,
in page order. The severity defaults to unknown when the data-severity
attribute is absent; the title is the stripped h4 text, defaulting to the
empty string when the h4 node is absent; the description is the stripped p
text, defaulting to the empty string when the p node is absent. -/
def extract_findings (findingElems : List FindingElem) : List Finding :=
  findingElems.map fun e =>
    { severity := e.dataSeverity.getD "unknown"
      title := match e.h4 with
        | some t => pyStrip t
        | none => ""
      description := match e.p with
        | some t => pyStrip t
        | none => "" }

/-- Code4renaCollector.extract_prize_pool: stripped text of the prize-pool
div, defaulting to N/A when the node is absent. -/
def extract_prize_pool (prizeElem : Option String) : String :=
  match prizeElem with
  | some t => pyStrip t
  | none => "N/A"

/-- Code4renaCollector.extract_participants: the participants-count span
text passed to int when the node is present, 0 when it is absent. The int
call is unguarded, so non-numeric text raises ValueError. -/
def extract_participants (elem : Option String) : Except PyError Int :=
  match elem with
  | some t =>
      match pyInt t with
      | some n => .ok n
      | none => .error .valueError
  | none => .ok 0

/-- Base URL of the platform, from Code4renaCollector.__init__. -/
def base_url : String := "https://code4rena.com"

/-- Contest index URL, from Code4renaCollector.__init__. -/
def contests_url : String := base_url ++ "/contests"

/-- Body of the per-element loop in get_contests: the contest dict built
from one contest-card element. Reading .text on a missing h3 child raises
AttributeError; the data-slug attribute defaults to the empty string. -/
def parse_contest (e : ContestElem) : Except PyError Contest :=
  match e.h3 with
  | none => .error .attributeError
  | some t =>
      .ok { slug := e.dataSlug.getD ""
            title := pyStrip t
            url := base_url ++ "/contests/" ++ e.dataSlug.getD "" }

/-- Loop of get_contests over the truncated element list; the first raising
element aborts the whole call. -/
def parse_contests : List ContestElem → Except PyError (List Contest)
  | [] => .ok []
  | e :: rest =>
      match parse_contest e with
      | .error err => .error err
      | .ok c =>
          match parse_contests rest with
          | .error err => .error err
          | .ok cs => .ok (c :: cs)

/-- Code4renaCollector.get_contests: the contest-card elements of the index
page truncated to the first limit entries in page order, each parsed into a
contest dict. -/
def get_contests (elems : List ContestElem) (limit : Nat) : Except PyError (List Contest) :=
  parse_contests (elems.take limit)

/-- Code4renaCollector.collect_contest_data: fetch the detail page for the
contest URL, then build the report dict. The fetch argument models
session.get plus response.text; an error value is a raised NetworkError.
The unguarded int call inside extract_participants can also raise, which
aborts the whole report. -/
def collect_contest_data (fetch : String → Except PyError DetailPage) (now : String)
    (contest : Contest) : Except PyError Report :=
  match fetch contest.url with
  | .error err => .error err
  | .ok page =>
      match extract_participants page.participantsCount with
      | .error err => .error err
      | .ok n =>
          .ok { platform := "Code4rena"
                title := contest.title
                url := contest.url
                date := now
                findings := extract_findings page.findingElems
                prize_pool := extract_prize_pool page.prizePool
                participants := n }

/-- Raw-data sink state: the files written under data/raw, keyed by the
filename argument, holding the serialized record. -/
def RawSink : Type := List (String × Report)

/-- BaseCollector.save_raw_data: the body calls json.dump, but the name
json is not bound in the base_collector module namespace (the module never
imports it), so the call raises NameError before any payload reaches the
sink; the sink is never extended. -/
def save_raw_data (_sink : RawSink) (_data : Report) (_filename : String) :
    Except PyError RawSink :=
  .error .nameError

/-- Scheduler environment of one collect call: the contest-card elements of
the index page, the detail-page fetch, and the datetime.now().isoformat()
value. -/
structure CollectEnv where
  indexElems : List ContestElem
  fetch : String → Except PyError DetailPage
  now : String

/-- Body of the per-contest loop in collect, with its try/except boundary:
any exception raised by collect_contest_data or save_raw_data is caught and
logged with the failing slug, and the loop continues. The report dict is a
non-empty dict, hence truthy, so a successful collect_contest_data always
takes the append branch; the append happens before save_raw_data, so a
report stays in the result list even when save_raw_data raises. -/
def collect_step (env : CollectEnv) (st : List Report × RawSink) (contest : Contest) :
    List Report × RawSink :=
  match collect_contest_data env.fetch env.now contest with
  | .error _ => st
  | .ok report =>
      let reports := st.1 ++ [report]
      match save_raw_data st.2 report contest.slug with
      | .ok sink => (reports, sink)
      | .error _ => (reports, st.2)

/-- Code4renaCollector.collect: fetch the index, truncate to limit, run the
per-contest loop, and return the accumulated reports. An exception raised
by get_contests is outside the per-contest try/except and propagates. -/
def collect (env : CollectEnv) (sink : RawSink) (limit : Nat) :
    Except PyError (List Report × RawSink) :=
  match get_contests env.indexElems limit with
  | .error err => .error err
  | .ok contests => .ok (contests.foldl (collect_step env) ([], sink))

/-- Required fields list of BaseCollector.validate_data. -/
def required_fields : List String := ["title", "platform", "date", "findings"]

/-- BaseCollector.validate_data: the Python membership test field in data
on a dict checks key presence only, so the function returns true exactly
when every required field occurs as a key, with no condition on the values. -/
def validate_data (data : List (String × PyValue)) : Bool :=
  required_fields.all fun f => data.any fun kv => kv.1 == f

/-- Lookup of a key in a record dict. -/
def lookupKey (data : List (String × PyValue)) (k : String) : Option PyValue :=
  (data.find? fun kv => kv.1 == k).map Prod.snd

/-- Non-emptiness of a Python value in the sense of the spec wording: a
string is non-empty when it has a character, a list when it has an element,
and an integer counts as non-empty. -/
def isNonEmptyValue : PyValue → Bool
  | .str s => s ≠ ""
  | .int _ => true
  | .list l => !l.isEmpty

/-- Validity predicate written from the spec wording, for comparison with
validate_data: non-empty title, platform and date values, and a findings
key present. -/
def spec_validate_data (data : List (String × PyValue)) : Bool :=
  ((lookupKey data "title").map isNonEmptyValue).getD false &&
  ((lookupKey data "platform").map isNonEmptyValue).getD false &&
  ((lookupKey data "date").map isNonEmptyValue).getD false &&
  (lookupKey data "findings").isSome

/-- Sleep duration chosen by one iteration of the start_collectors loop in
run.py: 3600 seconds after collect returns normally, 60 seconds after an
exception escapes collect and is caught and logged. -/
def scheduler_sleep (ok : Bool) : Nat :=
  if ok then 3600 else 60

/-- Trace of the while True loop body of start_collectors, reached only
when the collector construction above the loop succeeds: the attempts
argument gives, for each iteration index, whether that collect call
returned without raising; the trace gives the sleep performed after that
iteration. The function is total in the index: the loop itself has no
terminal state. -/
def scheduler_trace (attempts : Nat → Bool) (n : Nat) : Nat :=
  scheduler_sleep (attempts n)

/-- Method names declared abstract on BaseCollector with the
abstractmethod decorator: collect and parse_report. -/
def base_abstract_methods : List String := ["collect", "parse_report"]

/-- Method names defined on Code4renaCollector; parse_report is absent. -/
def code4rena_methods : List String :=
  ["__init__", "collect", "get_contests", "collect_contest_data",
   "extract_findings", "extract_prize_pool", "extract_participants"]

/-- Abstract methods of BaseCollector that Code4renaCollector leaves
unimplemented; parse_report remains. -/
def abstract_remaining : List String :=
  base_abstract_methods.filter fun m => !(code4rena_methods.contains m)

/-- Construction of a Code4renaCollector instance under the Python abc
rules: a class whose set of unimplemented abstract methods is non-empty
stays abstract, and calling its constructor raises TypeError. -/
def instantiate_code4rena : Except PyError Unit :=
  if abstract_remaining.isEmpty then .ok () else .error .typeError

/-- run.py start_collectors: the collector is constructed above the while
loop and outside any try, so an exception raised by the construction
escapes the function before the first iteration; only when the
construction succeeds does the loop produce the sleep trace. -/
def start_collectors (attempts : Nat → Bool) : Except PyError (Nat → Nat) :=
  match instantiate_code4rena with
  | .error err => .error err
  | .ok _ => .ok (scheduler_trace attempts)

/-- HTTP error outcomes relevant to the modelled routes. -/
inductive HttpError where
  | unprocessableEntity
  | notFound
  deriving Repr, DecidableEq

/-- Parameter layer of GET /reports in routes.py: the limit query parameter
is declared Query(10, ge=1, le=100), so an omitted limit becomes 10 and a
value outside 1..100 is rejected with a validation error before the handler
body runs. -/
def get_reports_limit (limit : Option Int) : Except HttpError Int :=
  match limit with
  | none => .ok 10
  | some v => if 1 ≤ v ∧ v ≤ 100 then .ok v else .error .unprocessableEntity

/-- Storage visible to the API process: the relational report rows and the
raw-data sink. -/
structure StoreState where
  reports : List Report
  rawSink : RawSink

/-- Handler of POST /collect in routes.py: the body only returns the
message dict; it references no collector and no database handle, so the
store is passed through unchanged and no collection starts. -/
def trigger_collection (platform : String) (store : StoreState) : String × StoreState :=
  ("Collection started for " ++ platform, store)

/-- Detail page with no finding, prize-pool or participant nodes. -/
def emptyPage : DetailPage :=
  { findingElems := [], prizePool := none, participantsCount := none }

/-- Detail page with one fully populated finding and numeric participant
count. -/
def demoPage : DetailPage :=
  { findingElems := [{ dataSeverity := some "high"
                       h4 := some " Reentrancy "
                       p := some " Funds can be drained. " }]
    prizePool := some " $50,000 "
    participantsCount := some "42" }

/-- Finding record extracted from the demo page. -/
def demoFinding : Finding :=
  { severity := "high", title := "Reentrancy", description := "Funds can be drained." }

/-- Contest-card element with the given slug. -/
def card (slug : String) : ContestElem :=
  { dataSlug := some slug, h3 := some ("Contest " ++ slug) }

/-- Contest dict that get_contests builds from card slug. -/
def contestOf (slug : String) : Contest :=
  { slug := slug, title := "Contest " ++ slug, url := base_url ++ "/contests/" ++ slug }

/-- Report obtained from the demo page for a contest with the given slug. -/
def demoReport (slug : String) : Report :=
  { platform := "Code4rena"
    title := "Contest " ++ slug
    url := base_url ++ "/contests/" ++ slug
    date := "2026-01-02T00:00:00"
    findings := [demoFinding]
    prize_pool := "$50,000"
    participants := 42 }

/-- Environment with a single contest whose title node text is empty; every
detail fetch succeeds with the empty page. -/
def emptyTitleEnv : CollectEnv :=
  { indexElems := [{ dataSlug := some "x", h3 := some "" }]
    fetch := fun _ => .ok emptyPage
    now := "2026-01-01T00:00:00" }

/-- Report that collect builds in emptyTitleEnv: its title is empty. -/
def emptyTitleReport : Report :=
  { platform := "Code4rena"
    title := ""
    url := "https://code4rena.com/contests/x"
    date := "2026-01-01T00:00:00"
    findings := []
    prize_pool := "N/A"
    participants := 0 }

/-- Environment with one well-formed contest and a succeeding fetch. -/
def okEnv : CollectEnv :=
  { indexElems := [card "a"]
    fetch := fun _ => .ok demoPage
    now := "2026-01-02T00:00:00" }

/-- Environment with five contests where exactly the detail fetch of the
third contest raises NetworkError. -/
def failEnv : CollectEnv :=
  { indexElems := [card "a", card "b", card "c", card "d", card "e"]
    fetch := fun url =>
      if url = base_url ++ "/contests/c" then .error .networkError else .ok demoPage
    now := "2026-01-02T00:00:00" }

/-- Record dict with all four required keys present but with empty title,
empty date and empty findings list. -/
def emptyTitleRecord : List (String × PyValue) :=
  [("title", .str ""), ("platform", .str "Code4rena"), ("date", .str ""),
   ("findings", .list [])]

/-- Record dict with all four required keys present and non-empty string
values. -/
def wellFormedRecord : List (String × PyValue) :=
  [("title", .str "Contest a"), ("platform", .str "Code4rena"),
   ("date", .str "2026-01-02T00:00:00"), ("findings", .list [.str "f"])]

/-- Helper: the Python key-membership test over the record dict holds
exactly when the key occurs among the record keys. -/
theorem any_key_eq_mem (data : List (String × PyValue)) (k : String) :
    (data.any fun kv => kv.1 == k) = true ↔ k ∈ data.map Prod.fst := by
  simp [List.any_eq_true, List.mem_map]

/-- Helper: parse_contests succeeds only with one contest per element. -/
theorem parse_contests_length :
    ∀ (l : List ContestElem) (cs : List Contest), parse_contests l = .ok cs →
      cs.length = l.length := by
  intro l
  induction l with
  | nil =>
      intro cs h
      simp [parse_contests] at h
      simp [h.symm]
  | cons e rest ih =>
      intro cs h
      unfold parse_contests at h
      cases hpe : parse_contest e <;> rw [hpe] at h
      · simp at h
      · cases hr : parse_contests rest <;> rw [hr] at h
        · simp at h
        · simp at h
          subst h
          simp [ih _ hr]

/-- Helper: the per-contest loop appends exactly the successful reports, in
order, and leaves the raw sink unchanged. -/
theorem collect_fold_characterization (env : CollectEnv) (cs : List Contest) :
    ∀ (rs : List Report) (sink : RawSink),
      cs.foldl (collect_step env) (rs, sink) =
        (rs ++ cs.filterMap (fun c => (collect_contest_data env.fetch env.now c).toOption),
         sink) := by
  induction cs with
  | nil => intro rs sink; simp
  | cons c cs ih =>
      intro rs sink
      cases h : collect_contest_data env.fetch env.now c with
      | error err =>
          simp [collect_step, h, Except.toOption, ih]
      | ok r =>
          simp [collect_step, h, save_raw_data, Except.toOption, ih]

/-- Helper: when the index fetch succeeds, collect returns exactly the
successful per-contest reports and the unchanged raw sink. -/
theorem collect_ok_eq (env : CollectEnv) (sink : RawSink) (limit : Nat) (cs : List Contest)
    (h : get_contests env.indexElems limit = .ok cs) :
    collect env sink limit =
      .ok (cs.filterMap (fun c => (collect_contest_data env.fetch env.now c).toOption),
           sink) := by
  unfold collect
  rw [h]
  simp only []
  rw [collect_fold_characterization]
  simp

/-- Claim C1, counterexample: in an environment whose single contest card
carries an empty title node, collect returns the record whose title is the
empty string, so a record with an empty title is not excluded from the
returned sequence. -/
theorem collect_returns_empty_title_record :
    collect emptyTitleEnv [] 5 = .ok ([emptyTitleReport], []) ∧
    emptyTitleReport.title = "" := by
  exact ⟨rfl, rfl⟩

/-- Claim C1, amended: collect never invokes validate_data, so every record
whose fetch and extraction succeed is included in the returned sequence
regardless of its title; and no record is ever persisted, because the
returned raw sink always equals the input sink (save_raw_data raises before
writing), so records with an empty title indeed never appear in storage,
but neither does any other record. -/
theorem collect_no_validation (env : CollectEnv) (sink : RawSink) (limit : Nat)
    (cs : List Contest) (h : get_contests env.indexElems limit = .ok cs) :
    collect env sink limit =
      .ok (cs.filterMap (fun c => (collect_contest_data env.fetch env.now c).toOption),
           sink) :=
  collect_ok_eq env sink limit cs h

/-- Witness for collect_no_validation at the empty-title environment. -/
theorem collect_no_validation_witness :
    collect emptyTitleEnv [] 5 = .ok ([emptyTitleReport], []) := by
  have h := collect_no_validation emptyTitleEnv [] 5
    [{ slug := "x", title := "", url := "https://code4rena.com/contests/x" }] (by rfl)
  rw [h]
  rfl

/-- Claim C2, counterexample: a record with all four keys present but an
empty title (and empty date and findings) is accepted by validate_data,
while the validity predicate written from the spec wording rejects it. -/
theorem validate_data_accepts_empty_title :
    validate_data emptyTitleRecord = true ∧
    spec_validate_data emptyTitleRecord = false := by
  exact ⟨rfl, rfl⟩

/-- Claim C2, amended: validate_data returns true exactly when the four
required keys are present in the record, with no condition on the values;
emptiness of the title, platform or date values is not checked. -/
theorem validate_data_iff_keys (data : List (String × PyValue)) :
    validate_data data = true ↔
      ("title" ∈ data.map Prod.fst ∧ "platform" ∈ data.map Prod.fst ∧
       "date" ∈ data.map Prod.fst ∧ "findings" ∈ data.map Prod.fst) := by
  simp [validate_data, required_fields, any_key_eq_mem]

/-- Witness for validate_data_iff_keys at a fully populated record. -/
theorem validate_data_iff_keys_witness :
    validate_data wellFormedRecord = true :=
  (validate_data_iff_keys wellFormedRecord).mpr (by simp [wellFormedRecord])

/-- Claim C3, counterexample: a participants-count node whose text is not
numeric makes extract_participants raise ValueError via the unguarded int
call, instead of returning 0. -/
theorem extract_participants_nonnumeric_raises :
    extract_participants (some "abc") = .error .valueError := by
  exact rfl

/-- Claim C3, amended: extract_participants returns 0 when the
participants-count node is absent and the parsed integer when the node text
is numeric, but raises ValueError when the node is present and its text is
non-numeric. -/
theorem extract_participants_spec :
    (extract_participants none = .ok 0) ∧
    (∀ (t : String) (n : Int), pyInt t = some n → extract_participants (some t) = .ok n) ∧
    (∀ t : String, pyInt t = none → extract_participants (some t) = .error .valueError) := by
  refine ⟨rfl, ?_, ?_⟩
  · intro t n h
    simp [extract_participants, h]
  · intro t h
    simp [extract_participants, h]

/-- Witness for extract_participants_spec at numeric and non-numeric
inputs. -/
theorem extract_participants_spec_witness :
    extract_participants (some " 42 ") = .ok 42 ∧
    extract_participants (some "12f") = .error .valueError :=
  ⟨extract_participants_spec.2.1 " 42 " 42 (by rfl),
   extract_participants_spec.2.2 "12f" (by rfl)⟩

/-- Claim C4: save_raw_data raises NameError for every report and filename,
because the name json is unbound in the base_collector module, so the raw
sink is never written; and because collect appends the report before
calling save_raw_data and catches the exception at the per-contest
boundary, every successfully extracted report still appears in the value
collect returns, while the returned sink equals the input sink. -/
theorem save_raw_data_raises_report_kept :
    (∀ (sink : RawSink) (r : Report) (f : String),
      save_raw_data sink r f = .error .nameError) ∧
    (∀ (env : CollectEnv) (sink : RawSink) (limit : Nat) (cs : List Contest)
        (c : Contest) (r : Report),
      get_contests env.indexElems limit = .ok cs → c ∈ cs →
      collect_contest_data env.fetch env.now c = .ok r →
      ∃ rs, collect env sink limit = .ok (rs, sink) ∧ r ∈ rs) := by
  refine ⟨fun _ _ _ => rfl, ?_⟩
  intro env sink limit cs c r hg hc hr
  refine ⟨_, collect_ok_eq env sink limit cs hg, ?_⟩
  exact List.mem_filterMap.mpr ⟨c, hc, by rw [hr]; rfl⟩

/-- Witness for save_raw_data_raises_report_kept at the one-contest
environment. -/
theorem save_raw_data_raises_report_kept_witness :
    save_raw_data [] (demoReport "a") "a" = .error .nameError ∧
    ∃ rs, collect okEnv [] 10 = .ok (rs, []) ∧ demoReport "a" ∈ rs :=
  ⟨save_raw_data_raises_report_kept.1 [] (demoReport "a") "a",
   save_raw_data_raises_report_kept.2 okEnv [] 10 [contestOf "a"] (contestOf "a")
     (demoReport "a") (by rfl) (by simp) (by rfl)⟩

/-- Claim C5: a failure while processing one contest is caught at the
per-contest boundary and does not abort the batch: with five contests where
exactly the detail fetch of the third raises NetworkError, collect with
limit 5 returns exactly the four reports of the other contests, in order. -/
theorem collect_partial_failure (env : CollectEnv) (sink : RawSink)
    (c1 c2 c3 c4 c5 : Contest) (r1 r2 r4 r5 : Report)
    (hidx : get_contests env.indexElems 5 = .ok [c1, c2, c3, c4, c5])
    (h1 : collect_contest_data env.fetch env.now c1 = .ok r1)
    (h2 : collect_contest_data env.fetch env.now c2 = .ok r2)
    (h3 : collect_contest_data env.fetch env.now c3 = .error .networkError)
    (h4 : collect_contest_data env.fetch env.now c4 = .ok r4)
    (h5 : collect_contest_data env.fetch env.now c5 = .ok r5) :
    collect env sink 5 = .ok ([r1, r2, r4, r5], sink) := by
  rw [collect_ok_eq env sink 5 _ hidx]
  simp [List.filterMap_cons, h1, h2, h3, h4, h5, Except.toOption]

/-- Witness for collect_partial_failure at the five-contest environment
whose third detail fetch raises. -/
theorem collect_partial_failure_witness :
    collect failEnv [] 5 =
      .ok ([demoReport "a", demoReport "b", demoReport "d", demoReport "e"], []) :=
  collect_partial_failure failEnv []
    (contestOf "a") (contestOf "b") (contestOf "c") (contestOf "d") (contestOf "e")
    (demoReport "a") (demoReport "b") (demoReport "d") (demoReport "e")
    (by rfl) (by rfl) (by rfl) (by rfl) (by rfl) (by rfl)

/-- Claim C6: collect with a given limit returns at most limit reports, and
at most as many reports as the index page lists contest cards, since the
contest list is truncated to the first limit entries in page order. -/
theorem collect_at_most_limit (env : CollectEnv) (sink : RawSink) (limit : Nat)
    (rs : List Report) (sink2 : RawSink)
    (h : collect env sink limit = .ok (rs, sink2)) :
    rs.length ≤ limit ∧ rs.length ≤ env.indexElems.length := by
  cases hg : get_contests env.indexElems limit with
  | error err =>
      unfold collect at h
      rw [hg] at h
      simp at h
  | ok cs =>
      rw [collect_ok_eq env sink limit cs hg] at h
      have hEq :
          cs.filterMap (fun c => (collect_contest_data env.fetch env.now c).toOption) = rs := by
        have h2 := h
        injection h2 with h3
        exact congrArg Prod.fst h3
      have hlen : cs.length = min limit env.indexElems.length := by
        have := parse_contests_length _ _ hg
        simpa [List.length_take] using this
      have hfm :=
        List.length_filterMap_le (fun c => (collect_contest_data env.fetch env.now c).toOption) cs
      rw [hEq] at hfm
      omega

/-- Witness for collect_at_most_limit at the one-contest environment with
limit 10. -/
theorem collect_at_most_limit_witness :
    [demoReport "a"].length ≤ 10 ∧ [demoReport "a"].length ≤ okEnv.indexElems.length :=
  collect_at_most_limit okEnv [] 10 [demoReport "a"] [] (by rfl)

/-- Claim C7: extract_findings returns one record per finding container, in
page order, so its length equals the number of containers; the severity
defaults to unknown when the data-severity attribute is absent, the title
to the empty string when the h4 node is absent, and the description to the
empty string when the p node is absent. -/
theorem extract_findings_shape (elems : List FindingElem) :
    (extract_findings elems).length = elems.length ∧
    ∀ i : Nat, (extract_findings elems)[i]? =
      elems[i]?.map (fun e =>
        { severity := e.dataSeverity.getD "unknown"
          title := (e.h4.map pyStrip).getD ""
          description := (e.p.map pyStrip).getD "" }) := by
  constructor
  · simp [extract_findings]
  · intro i
    simp only [extract_findings, List.getElem?_map]
    cases h : elems[i]? with
    | none => rfl
    | some e =>
        obtain ⟨sev, h4, p⟩ := e
        cases h4 <;> cases p <;> rfl

/-- Claim C8: the claim describes the intended scheduler loop, but the
code never reaches it. Code4renaCollector leaves the abstract method
parse_report unimplemented, so under the Python abc rules the class stays
abstract and the constructor call at the top of start_collectors raises
TypeError, before the while loop and outside any try; start_collectors
therefore raises for every attempt sequence, no iteration runs, and no
3600 or 60 second sleep ever occurs. -/
theorem start_collectors_always_raises :
    instantiate_code4rena = .error .typeError ∧
    (∀ attempts : Nat → Bool, start_collectors attempts = .error .typeError) :=
  ⟨rfl, fun _ => rfl⟩

/-- Claim C9: the limit parameter of GET /reports defaults to 10 when
omitted, is served unchanged when it lies in 1..100, and is rejected with a
validation error for every value outside 1..100, in particular 101. -/
theorem get_reports_limit_spec :
    (get_reports_limit none = .ok 10) ∧
    (get_reports_limit (some 101) = .error .unprocessableEntity) ∧
    (∀ v : Int, 1 ≤ v → v ≤ 100 → get_reports_limit (some v) = .ok v) ∧
    (∀ v : Int, v < 1 ∨ 100 < v →
      get_reports_limit (some v) = .error .unprocessableEntity) := by
  refine ⟨rfl, by rfl, ?_, ?_⟩
  · intro v h1 h2
    simp only [get_reports_limit]
    rw [if_pos ⟨h1, h2⟩]
  · intro v hv
    simp only [get_reports_limit]
    rw [if_neg]
    rintro ⟨ha, hb⟩
    rcases hv with h | h <;> omega

/-- Witness for get_reports_limit_spec at an in-range and an out-of-range
value. -/
theorem get_reports_limit_spec_witness :
    get_reports_limit (some 10) = .ok 10 ∧
    get_reports_limit (some 0) = .error .unprocessableEntity :=
  ⟨get_reports_limit_spec.2.2.1 10 (by decide) (by decide),
   get_reports_limit_spec.2.2.2 0 (Or.inl (by decide))⟩

/-- Claim C10: the POST /collect handler returns only the started message
for the given platform and passes the store through unchanged: no report
row, finding row or raw-data file results from invoking it, and no
collection is started. -/
theorem trigger_collection_pure (platform : String) (store : StoreState) :
    trigger_collection platform store = ("Collection started for " ++ platform, store) ∧
    (trigger_collection platform store).2 = store :=
  ⟨rfl, rfl⟩

end AuditIntel
